import Mathlib

/-!
Verification of the ClaimGuard AI claim-adjudication pipeline.

This file gives a shallow embedding of the core services of the repository
(`fraud_detection.py`, `decision_engine.py`, `damage_assessment.py`,
`claim_processor.py`) and proves or refutes the frozen claims about them.

Modelling conventions:
- Python `datetime` values are modelled as `Int` timestamps in seconds;
  `timedelta.days` is floor division by 86400, i.e. `Int.fdiv _ 86400`.
- Python dictionaries produced by the services are modelled as structures
  whose optional keys are `Option` fields; `dict.get(k, d)` is `Option.getD`.
- Python floats that are only ever compared (confidence thresholds) are
  modelled as rationals.
- External collaborators (database, vision service, EXIF extraction, blob
  store) are modelled as inputs: a lookup outcome, a downloaded metadata
  record, a service reply together with the outcome of `json.loads` on it.
- A raised Python exception is an `Except.error` carrying the message.
-/

namespace ClaimGuard

/-! ## Data model -/

inductive RiskLevel where
  | low
  | medium
  | high
deriving DecidableEq, Repr

inductive DecisionKind where
  | approved
  | under_review
  | rejected
deriving DecidableEq, Repr

/-- Model of `ClaimStatus` from `models/claim.py`. -/
inductive ClaimStatus where
  | pending
  | approved
  | under_review
  | rejected
deriving DecidableEq, Repr

/-- Result dictionary of `MetadataAnalyzer.check_metadata_fraud` and
`TimingAnalyzer.check_suspicious_timing`. -/
structure SignalResult where
  is_suspicious : Bool
  flags : List String
  score : Nat
deriving DecidableEq, Repr

/-- Result dictionary of `FrequencyAnalyzer.check_claim_history`
(it carries the extra `recent_claims_count` key). -/
structure FrequencyResult where
  is_suspicious : Bool
  flags : List String
  score : Nat
  recent_claims_count : Nat
deriving DecidableEq, Repr

/-- The dictionary returned by `MetadataAnalyzer.extract_exif`.
`datetime_original` is the capture timestamp after the `strptime` parse in
`check_metadata_fraud`: `none` models both an absent/empty field and a
present but unparseable one (both skip the date-mismatch signal). -/
structure ExifMeta where
  has_metadata : Bool
  datetime_original : Option Int
  make : Option String
  model : Option String
  gps_info : Option String
  software : Option String
deriving DecidableEq, Repr

/-! Python string primitives, modelled structurally over the character
list of the string (Python strings are sequences of code points, so
character-based definitions match Python slicing and scanning). -/

/-- Test whether `needle` occurs as a contiguous substring of `hay`. -/
def containsSub : List Char → List Char → Bool
  | needle, [] => needle.isEmpty
  | needle, c :: rest => needle.isPrefixOf (c :: rest) || containsSub needle rest

/-- Python substring containment `needle in hay`. -/
def strContains (hay needle : String) : Bool :=
  containsSub needle.data hay.data

/-- Python `str.lower()` (ASCII-relevant part). -/
def pyToLower (s : String) : String :=
  String.mk (s.data.map Char.toLower)

/-- Python `str.strip()`: remove leading and trailing whitespace. -/
def pyStrip (s : String) : String :=
  String.mk
    (((s.data.dropWhile Char.isWhitespace).reverse.dropWhile Char.isWhitespace).reverse)

/-- Python `str.startswith(pre)`. -/
def pyStartsWith (s pre : String) : Bool :=
  pre.data.isPrefixOf s.data

/-- Python `str.endswith(suf)`. -/
def pyEndsWith (s suf : String) : Bool :=
  suf.data.reverse.isPrefixOf s.data.reverse

/-- Python `s[n:]`. -/
def pyDrop (s : String) (n : Nat) : String :=
  String.mk (s.data.drop n)

/-- Python `s[:-n]` (for `n ≤ len(s)`). -/
def pyDropRight (s : String) (n : Nat) : String :=
  String.mk (s.data.take (s.data.length - n))

/-! ## MetadataAnalyzer.check_metadata_fraud (fraud_detection.py 45-98) -/

/-- Here `claimed_date` is the claimed incident date after `fromisoformat`;
`none` models any parse failure (silently skips the date-mismatch signal). -/
def check_metadata_fraud (metadata : ExifMeta) (claimed_date : Option Int) :
    SignalResult :=
  -- Signal 1: No metadata (stripped)
  let flags1 : List String :=
    if !metadata.has_metadata then ["Metadata stripped or missing"] else []
  let score1 : Nat := if !metadata.has_metadata then 15 else 0
  -- Signal 2: Date mismatch (7 days tolerance on the floor of the delta)
  let diff_days : Option Nat :=
    match metadata.datetime_original, claimed_date with
    | some photo_date, some claim_date =>
        some ((photo_date - claim_date).fdiv 86400).natAbs
    | _, _ => none
  let flags2 : List String :=
    match diff_days with
    | some d => if d > 7 then flags1 ++ [s!"Photo taken {d} days from claim date"] else flags1
    | none => flags1
  let score2 : Nat :=
    match diff_days with
    | some d => if d > 7 then score1 + 10 else score1
    | none => score1
  -- Signal 3: Edited with software
  let editedHit : Bool :=
    match metadata.software with
    | some software =>
        ["photoshop", "gimp", "affinity", "lightroom"].any
          (fun editor => strContains (pyToLower software) editor)
    | none => false
  let flags3 : List String :=
    if editedHit then flags2 ++ ["Image edited with photo software"] else flags2
  let score3 : Nat := if editedHit then score2 + 5 else score2
  { is_suspicious := decide (score3 > 10)
    flags := flags3
    score := min score3 20 }

/-! ## FrequencyAnalyzer.check_claim_history (fraud_detection.py 104-144)

The database count of claims on the policy in the trailing 90 days is an
external collaborator; it is passed in as `recent_claims` (the code applies
`result.scalar() or 0`, so the count is a natural number). -/

def check_claim_history (recent_claims : Nat) : FrequencyResult :=
  let flags : List String :=
    if recent_claims > 2 then [s!"{recent_claims} claims in last 90 days"] else []
  let score : Nat :=
    if recent_claims > 2 then min 25 (recent_claims * 8) else 0
  { is_suspicious := decide (recent_claims > 2)
    flags := flags
    score := score
    recent_claims_count := recent_claims }

/-! ## TimingAnalyzer.check_suspicious_timing (fraud_detection.py 150-193)

Each date argument is the result of `fromisoformat` on the corresponding
string: `none` models a parse failure, in which case the code returns the
zero result (any of the three failing aborts all three). -/

def check_suspicious_timing (incident policy_start policy_end : Option Int) :
    SignalResult :=
  match incident, policy_start, policy_end with
  | some incident, some policy_start, some policy_end =>
    -- Check if within 7 days of policy start
    let days_after_start : Int := (incident - policy_start).fdiv 86400
    let flags1 : List String :=
      if 0 ≤ days_after_start ∧ days_after_start ≤ 7 then
        [s!"Claim filed {days_after_start} days after policy start"]
      else []
    let score1 : Nat :=
      if 0 ≤ days_after_start ∧ days_after_start ≤ 7 then 10 else 0
    -- Check if within 7 days of policy end
    let days_before_end : Int := (policy_end - incident).fdiv 86400
    let flags2 : List String :=
      if 0 ≤ days_before_end ∧ days_before_end ≤ 7 then
        flags1 ++ [s!"Claim filed {days_before_end} days before policy expiry"]
      else flags1
    let score2 : Nat :=
      if 0 ≤ days_before_end ∧ days_before_end ≤ 7 then score1 + 15 else score1
    { is_suspicious := decide (score2 > 0)
      flags := flags2
      score := score2 }
  | _, _, _ => { is_suspicious := false, flags := [], score := 0 }

/-! ## FraudDetector.calculate_fraud_score (fraud_detection.py 204-269) -/

/-- The dictionary returned by `calculate_fraud_score`; `details` holds the
per-analyzer breakdown in source order (metadata, frequency, timing). -/
structure FraudResult where
  fraud_score : Nat
  risk_level : RiskLevel
  flags : List String
  details : SignalResult × FrequencyResult × SignalResult
deriving DecidableEq, Repr

def calculate_fraud_score (metadata : ExifMeta) (claimed_date : Option Int)
    (recent_claims : Nat) (incident policy_start policy_end : Option Int) :
    FraudResult :=
  let metadata_result := check_metadata_fraud metadata claimed_date
  let frequency_result := check_claim_history recent_claims
  let timing_result := check_suspicious_timing incident policy_start policy_end
  let total_score :=
    metadata_result.score + frequency_result.score + timing_result.score
  let risk_level :=
    if total_score ≤ 30 then RiskLevel.low
    else if total_score ≤ 70 then RiskLevel.medium
    else RiskLevel.high
  { fraud_score := min total_score 100
    risk_level := risk_level
    flags := metadata_result.flags ++ frequency_result.flags ++ timing_result.flags
    details := (metadata_result, frequency_result, timing_result) }

/-! ## DamageAssessor (damage_assessment.py)

The vision service and `json.loads` are external: a service reply is a pair
of the reply text and the outcome of `json.loads` on the fence-stripped
text. A decoded JSON value is modelled by `PyVal`; the Python membership
test `field in data` succeeds on dicts (key presence), strings (substring)
and lists (element), and raises `TypeError` on non-container scalars. -/

/-- A decoded damage-assessment dictionary; every key the code ever reads
or writes is an `Option` field (dictionaries produced by the parser or the
fallbacks populate different subsets of keys). -/
structure DamageDict where
  damage_type : Option String := none
  severity : Option String := none
  estimated_cost_ngn : Option Int := none
  damaged_items : Option (List String) := none
  confidence : Option ℚ := none
  reasoning : Option String := none
  raw_response : Option String := none
  error : Option Bool := none
deriving DecidableEq, Repr

/-- A Python value decoded from JSON, restricted to the shapes the parser
distinguishes: a dict, a string, a list, or a non-container scalar
(number / bool / null). -/
inductive PyVal where
  | dict (d : DamageDict)
  | str (s : String)
  | list (xs : List String)
  | scalar
deriving DecidableEq, Repr

/-- Key presence in a decoded dict (`field in data` for a dict). -/
def dictHas (d : DamageDict) (field : String) : Bool :=
  if field = "damage_type" then d.damage_type.isSome
  else if field = "severity" then d.severity.isSome
  else if field = "estimated_cost_ngn" then d.estimated_cost_ngn.isSome
  else if field = "damaged_items" then d.damaged_items.isSome
  else if field = "confidence" then d.confidence.isSome
  else if field = "reasoning" then d.reasoning.isSome
  else if field = "raw_response" then d.raw_response.isSome
  else if field = "error" then d.error.isSome
  else false

/-- Python `field in data`; `none` models the `TypeError` raised when
`data` is not a container. -/
def pyContains (v : PyVal) (field : String) : Option Bool :=
  match v with
  | .dict d => some (dictHas d field)
  | .str s => some (strContains s field)
  | .list xs => some (xs.contains field)
  | .scalar => none

/-- The code-fence stripping at the start of `_parse_response`
(damage_assessment.py 133-140): strip, then drop a leading ```json, then a
leading ```, then a trailing ```. -/
def stripFences (text : String) : String :=
  let t := pyStrip text
  let t := if pyStartsWith t "```json" then pyDrop t 7 else t
  let t := if pyStartsWith t "```" then pyDrop t 3 else t
  let t := if pyEndsWith t "```" then pyDropRight t 3 else t
  t

/-- Python `s[:n]` (character slicing). -/
def pySlice (s : String) (n : Nat) : String := String.mk (s.data.take n)

/-- The parse-failure fallback dictionary of `_parse_response`
(damage_assessment.py 155-163); `e` is `str(e)` of the caught exception and
`t` the fence-stripped reply text. -/
def parseFallback (e : String) (t : String) : PyVal :=
  .dict
    { damage_type := some "Unable to determine"
      severity := some "moderate"
      estimated_cost_ngn := some 200000
      damaged_items := some []
      confidence := some (1 / 2)
      reasoning := some ("Error parsing response: " ++ e)
      raw_response := some (pySlice t 500) }

/-- The analysis-error fallback dictionary of `analyze_damage`
(damage_assessment.py 64-72). -/
def errorFallback (e : String) : PyVal :=
  .dict
    { damage_type := some "Unable to determine"
      severity := some "moderate"
      estimated_cost_ngn := some 200000
      damaged_items := some []
      confidence := some (3 / 10)
      reasoning := some ("Error during analysis: " ++ e)
      error := some true }

/-- Model of `DamageAssessor._parse_response` (damage_assessment.py 130-163).
`loads` is the outcome of `json.loads` on the fence-stripped text
(`Except.error` models `JSONDecodeError`). A `JSONDecodeError` or a failed
`assert` yields the parse fallback (Python `str` of a bare `AssertionError`
is the empty string); the `TypeError` raised by `in` on a non-container
propagates as `Except.error`. -/
def parse_response (text : String) (loads : Except String PyVal) :
    Except String PyVal :=
  let t := stripFences text
  match loads with
  | .error e => .ok (parseFallback e t)
  | .ok data =>
    match pyContains data "damage_type", pyContains data "severity",
        pyContains data "estimated_cost_ngn" with
    | some b1, some b2, some b3 =>
      if b1 && b2 && b3 then .ok data
      else .ok (parseFallback "" t)
    | _, _, _ => .error "argument of type is not iterable"

/-- Model of `DamageAssessor.analyze_damage` (damage_assessment.py 24-72).
`callOutcome` bundles the steps before parsing: `Except.error` models a
failure of image loading or of the vision-service call itself; `Except.ok`
carries the reply text and its `json.loads` outcome. Every failure path is
caught and mapped to a fallback dictionary; the function is total. -/
def analyze_damage (callOutcome : Except String (String × Except String PyVal)) :
    PyVal :=
  match callOutcome with
  | .error e => errorFallback e
  | .ok (text, loads) =>
    match parse_response text loads with
    | .ok result => result
    | .error e => errorFallback e

/-- A `json.loads` outcome on which `_parse_response` takes a fallback
path without raising: the decode failed, or the decoded value is a
container for which some required-field membership test is false. (A
non-container scalar instead raises `TypeError` out of the parser.) -/
def badLoads : Except String PyVal → Bool
  | .error _ => true
  | .ok v =>
    match pyContains v "damage_type", pyContains v "severity",
        pyContains v "estimated_cost_ngn" with
    | some b1, some b2, some b3 => !(b1 && b2 && b3)
    | _, _, _ => false

/-- Python `str(e)` of the exception the fallback reports: the message of the decode
error, or the empty string for a bare `AssertionError`. -/
def loadsErrMsg : Except String PyVal → String
  | .error e => e
  | .ok _ => ""

/-! ## ClaimDecisionEngine.make_decision (decision_engine.py 11-88) -/

/-- The decision dictionary; keys that only some branches populate are
`Option` fields. -/
structure Decision where
  decision : DecisionKind
  approved_amount : Option Int
  estimated_amount : Option Int
  reason : String
  flags : Option (List String)
  payment_timeline : Option String
  next_steps : String
deriving DecidableEq, Repr

/-- Group the reversed digit list into blocks of three. -/
def chunk3 : List Char → List (List Char)
  | [] => []
  | [a] => [[a]]
  | [a, b] => [[a, b]]
  | a :: b :: c :: rest => [a, b, c] :: chunk3 rest

/-- Python `f"{n:,}"` for a natural number: thousands separators. -/
def commaFormatNat (n : Nat) : String :=
  String.mk (List.intercalate [','] ((chunk3 (toString n).data.reverse).map List.reverse).reverse)

/-- Python `f"{n:,}"` for an integer. -/
def commaFormat (n : Int) : String :=
  (if n < 0 then "-" else "") ++ commaFormatNat n.natAbs

def make_decision (damage_assessment : DamageDict) (fraud_analysis : FraudResult)
    (policy_limit : Int) : Decision :=
  let estimated_cost : Int := damage_assessment.estimated_cost_ngn.getD 0
  let fraud_score : Nat := fraud_analysis.fraud_score
  let flags : List String := fraud_analysis.flags
  -- Rule 1: High fraud risk → Reject
  if fraud_score > 70 then
    { decision := .rejected
      approved_amount := none
      estimated_amount := none
      reason := "High fraud indicators detected"
      flags := some flags
      payment_timeline := none
      next_steps := "Please contact our fraud investigation team at fraud@claimguard.ai" }
  -- Rule 2: Medium fraud risk → Review
  else if fraud_score > 30 then
    { decision := .under_review
      approved_amount := none
      estimated_amount := some estimated_cost
      reason := "Additional verification required"
      flags := some flags
      payment_timeline := none
      next_steps := "Our team will review your claim within 4 hours" }
  -- Rule 3: Cost exceeds policy limit → Review
  else if estimated_cost > policy_limit then
    { decision := .under_review
      approved_amount := none
      estimated_amount := some estimated_cost
      reason := "Claim exceeds policy limit (₦" ++ commaFormat policy_limit ++ ")"
      flags := none
      payment_timeline := none
      next_steps := "Manual assessment required for high-value claims" }
  else
    -- Rule 4: Low confidence from AI → Review
    let confidence : ℚ := damage_assessment.confidence.getD 1
    if confidence < 3 / 5 then
      { decision := .under_review
        approved_amount := none
        estimated_amount := some estimated_cost
        reason := "Image quality requires manual review"
        flags := none
        payment_timeline := none
        next_steps := "Our team will review within 2 hours" }
    -- Rule 5: Low risk + within limit → Approve
    else
      { decision := .approved
        approved_amount := some estimated_cost
        estimated_amount := none
        reason := "Claim meets all approval criteria"
        flags := none
        payment_timeline := some "Within 24 hours"
        next_steps := "You\x27ll receive an SMS when payment is processed" }

/-! ## Pipeline orchestrator: process_claim (claim_processor.py 19-123)

The SQLAlchemy session is modelled by keeping the persisted claim record
separate from the in-memory record: attribute assignments mutate the
in-memory copy, and only a successful `db.commit()` makes it the persisted
one. Every external interaction is an `Env` field: the claim and customer
lookups (which may error, find nothing, or find a row), the image download
(plus EXIF extraction, which itself never raises), the vision-service call,
the claim-history count query, and the outcomes of the two `db.commit()`
call sites. -/

/-- The mutable claim-record columns the pipeline reads and writes. -/
structure ClaimRecord where
  status : ClaimStatus
  damage_assessment : Option PyVal
  estimated_amount : Int
  fraud_score : Nat
  fraud_flags : List String
  approved_amount : Option Int
  decision_reason : Option String
  decision_timestamp : Option Int
deriving DecidableEq, Repr

/-- The claim-row columns the pipeline reads. `incident_date` is a stored
`DateTime`, so `fromisoformat(claim.incident_date.isoformat())` always
round-trips to it. -/
structure ClaimData where
  images : List String
  incident_date : Int
  policy_number : String
deriving DecidableEq, Repr

/-- The customer-row columns the pipeline reads (same round-trip remark for
the two policy dates). -/
structure CustomerData where
  policy_start_date : Int
  policy_end_date : Int
  policy_limit : Int
deriving DecidableEq, Repr

/-- Outcome of a `db.execute(select(...))` + `scalar_one_or_none()` pair:
the query raised, found no row, or found a row. -/
inductive Lookup (α : Type) where
  | err (msg : String)
  | notFound
  | found (a : α)
deriving DecidableEq, Repr

/-- The external world of one pipeline run. -/
structure Env where
  claimLookup : Lookup ClaimData
  customerLookup : Lookup CustomerData
  download : Except String ExifMeta
  vision : Except String (String × Except String PyVal)
  historyCount : Except String Nat
  commit : Except String Unit
  recoveryCommit : Except String Unit
  now : Int

/-- Model of `ClaimStatus(decision["decision"])`. -/
def claimStatusOf : DecisionKind → ClaimStatus
  | .approved => .approved
  | .under_review => .under_review
  | .rejected => .rejected

/-- The outer `except` handler of `process_claim` (claim_processor.py
115-123): set status and reason on the in-memory record and try to commit;
if that commit also fails, the inner bare `except: pass` leaves the
persisted record as it was. -/
def recover (env : Env) (persisted mem : ClaimRecord) (msg : String) :
    ClaimRecord :=
  let mem :=
    { mem with
      status := ClaimStatus.under_review
      decision_reason := some ("Processing error: " ++ msg) }
  match env.recoveryCommit with
  | .ok _ => mem
  | .error _ => persisted

/-- Model of `process_claim` (claim_processor.py 19-123), returning the persisted
claim record after the run. `c0` is the stored record at pipeline start.
A failing claim lookup leaves the `claim` variable unbound, so the recovery
assignments raise and the bare `except: pass` keeps `c0`; the `not claim` /
`not customer` / no-images branches return early with no write. -/
def process_claim (env : Env) (c0 : ClaimRecord) : ClaimRecord :=
  match env.claimLookup with
  | .err _ => c0
  | .notFound => c0
  | .found cd =>
    match env.customerLookup with
    | .err e => recover env c0 c0 e
    | .notFound => c0
    | .found cust =>
      if cd.images.isEmpty then c0
      else
        match env.download with
        | .error e => recover env c0 c0 e
        | .ok exif =>
          -- 1. Damage Assessment
          let damage := analyze_damage env.vision
          let mem1 := { c0 with damage_assessment := some damage }
          match damage with
          | .dict dd =>
            let mem2 := { mem1 with estimated_amount := dd.estimated_cost_ngn.getD 0 }
            -- 2. Fraud Detection
            match env.historyCount with
            | .error e => recover env c0 mem2 e
            | .ok recent_claims =>
              let fraud :=
                calculate_fraud_score exif (some cd.incident_date) recent_claims
                  (some cd.incident_date) (some cust.policy_start_date)
                  (some cust.policy_end_date)
              let mem3 :=
                { mem2 with fraud_score := fraud.fraud_score, fraud_flags := fraud.flags }
              -- 3. Decision Engine
              let dec := make_decision dd fraud cust.policy_limit
              let mem4 :=
                { mem3 with
                  status := claimStatusOf dec.decision
                  approved_amount := dec.approved_amount
                  decision_reason := some dec.reason
                  decision_timestamp := some env.now }
              match env.commit with
              | .ok _ => mem4
              | .error e => recover env c0 mem4 e
          | _ =>
            -- `damage_result.get(...)` on a non-dict raises AttributeError
            recover env c0 mem1 "no attribute get"

/-! Concrete fixtures used to instantiate the orchestrator theorems. -/

/-- An EXIF record with metadata present and no signal-bearing fields. -/
def exif0 : ExifMeta :=
  { has_metadata := true
    datetime_original := none
    make := none
    model := none
    gps_info := none
    software := none }

/-- A well-formed decoded vision reply. -/
def damageDict0 : DamageDict :=
  { damage_type := some "Front bumper collision"
    severity := some "minor"
    estimated_cost_ngn := some 100000 }

/-- A claim row with one image, incident 100 days into the policy. -/
def claimData0 : ClaimData :=
  { images := ["https://img/1.jpg"]
    incident_date := 8640000
    policy_number := "POL-1" }

/-- A customer row with a one-year policy. -/
def customer0 : CustomerData :=
  { policy_start_date := 0
    policy_end_date := 31536000
    policy_limit := 500000 }

/-- A freshly submitted claim record (status PENDING, nothing written). -/
def pendingClaim : ClaimRecord :=
  { status := .pending
    damage_assessment := none
    estimated_amount := 0
    fraud_score := 0
    fraud_flags := []
    approved_amount := none
    decision_reason := none
    decision_timestamp := none }

/-- An environment in which the claim-history query raises and the
recovery commit succeeds. -/
def envHistoryError : Env :=
  { claimLookup := .found claimData0
    customerLookup := .found customer0
    download := .ok exif0
    vision := .ok ("reply", .ok (.dict damageDict0))
    historyCount := .error "history store unavailable"
    commit := .ok ()
    recoveryCommit := .error ""
    now := 0 }

/-- Like `envHistoryError` but the recovery commit succeeds. -/
def envHistoryErrorRecoverOk : Env :=
  { envHistoryError with recoveryCommit := .ok () }

/-- Like `envHistoryError` but the recovery commit also fails (the
database stays down for the whole run). -/
def envDoubleFailure : Env :=
  { envHistoryError with recoveryCommit := .error "db down" }

/-- An environment in which the claim row is missing. -/
def envClaimMissing : Env :=
  { envHistoryError with claimLookup := .notFound }

/-- An environment in which the customer row is missing. -/
def envCustomerMissing : Env :=
  { envHistoryError with customerLookup := .notFound }

/-- An EXIF record with a capture timestamp and no other signal-bearing
fields (metadata present, no editing-software tag): isolates the
date-mismatch signal of `check_metadata_fraud`. -/
def photoOnlyMeta (p : Int) : ExifMeta :=
  { has_metadata := true
    datetime_original := some p
    make := none
    model := none
    gps_info := none
    software := none }

/-! ## Helper lemmas on analyzer score bounds -/

theorem metadata_score_le (m : ExifMeta) (c : Option Int) :
    (check_metadata_fraud m c).score ≤ 20 :=
  Nat.min_le_right _ _

theorem frequency_score_le (n : Nat) :
    (check_claim_history n).score ≤ 25 := by
  unfold check_claim_history
  dsimp only
  split
  · exact Nat.min_le_left _ _
  · exact Nat.zero_le _

theorem timing_score_le (i s e : Option Int) :
    (check_suspicious_timing i s e).score ≤ 25 := by
  unfold check_suspicious_timing
  rcases i with _ | i <;> rcases s with _ | s <;> rcases e with _ | e <;>
    dsimp only <;> try exact Nat.zero_le _
  split_ifs <;> omega

theorem recover_ok (env : Env) (persisted mem : ClaimRecord) (msg : String)
    (h : env.recoveryCommit = Except.ok ()) :
    recover env persisted mem msg =
      { mem with
        status := ClaimStatus.under_review
        decision_reason := some ("Processing error: " ++ msg) } := by
  unfold recover
  rw [h]

theorem recover_err (env : Env) (persisted mem : ClaimRecord) (msg e : String)
    (h : env.recoveryCommit = Except.error e) :
    recover env persisted mem msg = persisted := by
  unfold recover
  rw [h]

/-! ## Theorems for the frozen claims -/

/-- Claim C1: `make_decision` evaluates its five rules in order with first
match winning: fraud_score > 70 yields `rejected` with no approved amount;
otherwise fraud_score > 30 yields `under_review`; otherwise an estimated
cost above the policy limit yields `under_review`; otherwise confidence
below 0.6 yields `under_review`; otherwise the claim is `approved` with
approved amount equal to the estimated cost. In particular fraud_score = 75
gives `rejected` regardless of confidence or cost. -/
theorem C1_decision_rules (d : DamageDict) (f : FraudResult) (policy_limit : Int) :
    (70 < f.fraud_score →
      (make_decision d f policy_limit).decision = DecisionKind.rejected ∧
      (make_decision d f policy_limit).approved_amount = none) ∧
    (f.fraud_score ≤ 70 → 30 < f.fraud_score →
      (make_decision d f policy_limit).decision = DecisionKind.under_review) ∧
    (f.fraud_score ≤ 30 → policy_limit < d.estimated_cost_ngn.getD 0 →
      (make_decision d f policy_limit).decision = DecisionKind.under_review) ∧
    (f.fraud_score ≤ 30 → d.estimated_cost_ngn.getD 0 ≤ policy_limit →
      d.confidence.getD 1 < 3 / 5 →
      (make_decision d f policy_limit).decision = DecisionKind.under_review) ∧
    (f.fraud_score ≤ 30 → d.estimated_cost_ngn.getD 0 ≤ policy_limit →
      3 / 5 ≤ d.confidence.getD 1 →
      (make_decision d f policy_limit).decision = DecisionKind.approved ∧
      (make_decision d f policy_limit).approved_amount = some (d.estimated_cost_ngn.getD 0)) := by
  refine ⟨fun h1 => ?_, fun h1 h2 => ?_, fun h1 h2 => ?_, fun h1 h2 h3 => ?_,
    fun h1 h2 h3 => ?_⟩
  · simp [make_decision, h1]
  · simp [make_decision, Nat.not_lt.2 h1, h2]
  · simp [make_decision, Nat.not_lt.2 (show f.fraud_score ≤ 70 by omega),
      Nat.not_lt.2 h1, h2]
  · simp [make_decision, Nat.not_lt.2 (show f.fraud_score ≤ 70 by omega),
      Nat.not_lt.2 h1, not_lt.2 h2, h3]
  · simp [make_decision, Nat.not_lt.2 (show f.fraud_score ≤ 70 by omega),
      Nat.not_lt.2 h1, not_lt.2 h2, not_lt.2 h3]

/-- Witness for C1 at a concrete input: fraud_score 75, confidence 1,
cost 0 — the first rule fires. -/
theorem C1_decision_rules_witness :
    (make_decision
      { estimated_cost_ngn := some 0, confidence := some 1 }
      { fraud_score := 75, risk_level := .high, flags := [],
        details := (⟨false, [], 0⟩, ⟨false, [], 0, 0⟩, ⟨false, [], 0⟩) }
      500000).decision = DecisionKind.rejected ∧
    (make_decision
      { estimated_cost_ngn := some 0, confidence := some 1 }
      { fraud_score := 75, risk_level := .high, flags := [],
        details := (⟨false, [], 0⟩, ⟨false, [], 0, 0⟩, ⟨false, [], 0⟩) }
      500000).approved_amount = none :=
  (C1_decision_rules
    { estimated_cost_ngn := some 0, confidence := some 1 }
    { fraud_score := 75, risk_level := .high, flags := [],
      details := (⟨false, [], 0⟩, ⟨false, [], 0, 0⟩, ⟨false, [], 0⟩) }
    500000).1 (by decide)

/-- Claim C2 counterexample: the claim asserts that
`check_suspicious_timing` always returns a score in [0, 15], but an
incident on the same day as both policy start and policy end scores
10 + 15 = 25, which exceeds 15. -/
theorem C2_counterexample :
    (check_suspicious_timing (some 0) (some 0) (some 0)).score = 25 ∧
    ¬ (check_suspicious_timing (some 0) (some 0) (some 0)).score ≤ 15 := by
  decide

/-- Claim C2 (amended): the score of each analyzer is a natural number bounded
by its cap — `check_metadata_fraud` by 20, `check_claim_history` by 25, and
`check_suspicious_timing` by 25 (not 15: its two boundary signals are
additive, so the attainable maximum is 10 + 15). Nonnegativity holds by
construction, the scores being naturals. -/
theorem C2_amended_analyzer_score_caps (m : ExifMeta) (c : Option Int)
    (n : Nat) (i s e : Option Int) :
    (check_metadata_fraud m c).score ≤ 20 ∧
    (check_claim_history n).score ≤ 25 ∧
    (check_suspicious_timing i s e).score ≤ 25 :=
  ⟨metadata_score_le m c, frequency_score_le n, timing_score_le i s e⟩

/-- Claim C3: the two boundary conditions of `check_suspicious_timing` are
independent and additive: whenever the incident is within 7 days
(inclusive, non-negative) of the policy start and within 7 days (inclusive,
non-negative) of the policy end, the analyzer scores 10 + 15 = 25 and emits
one flag naming the days after start and one naming the days before
expiry. -/
theorem C3_timing_both_boundaries (i s e : Int)
    (h1 : 0 ≤ i - s) (h2 : i - s ≤ 7 * 86400)
    (h3 : 0 ≤ e - i) (h4 : e - i ≤ 7 * 86400) :
    check_suspicious_timing (some i) (some s) (some e) =
      { is_suspicious := true
        flags := [s!"Claim filed {(i - s).fdiv 86400} days after policy start",
                  s!"Claim filed {(e - i).fdiv 86400} days before policy expiry"]
        score := 25 } := by
  have hd1 : 0 ≤ (i - s).fdiv 86400 ∧ (i - s).fdiv 86400 ≤ 7 := by
    rw [Int.fdiv_eq_ediv _ (by norm_num)]
    omega
  have hd2 : 0 ≤ (e - i).fdiv 86400 ∧ (e - i).fdiv 86400 ≤ 7 := by
    rw [Int.fdiv_eq_ediv _ (by norm_num)]
    omega
  unfold check_suspicious_timing
  simp only [if_pos hd1, if_pos hd2]
  simp

/-- Witness for C3: incident 5 days after policy start and 3 days before
policy end (a 8-day policy) scores 25 with both flags. -/
theorem C3_timing_both_boundaries_witness :
    check_suspicious_timing (some 432000) (some 0) (some 691200) =
      { is_suspicious := true
        flags := ["Claim filed 5 days after policy start",
                  "Claim filed 3 days before policy expiry"]
        score := 25 } := by
  rw [C3_timing_both_boundaries 432000 0 691200 (by decide) (by decide)
    (by decide) (by decide)]
  decide

/-- Claim C4: `calculate_fraud_score` returns fraud_score =
min(sum of the three analyzer scores, 100), the concatenation of the flag
lists in the order metadata, frequency, timing, and a risk level derived
from the total: ≤ 30 low, ≤ 70 medium, > 70 high. -/
theorem C4_aggregator (m : ExifMeta) (cd : Option Int) (n : Nat)
    (i s e : Option Int) :
    (calculate_fraud_score m cd n i s e).fraud_score =
      min ((check_metadata_fraud m cd).score + (check_claim_history n).score +
        (check_suspicious_timing i s e).score) 100 ∧
    (calculate_fraud_score m cd n i s e).flags =
      (check_metadata_fraud m cd).flags ++ (check_claim_history n).flags ++
        (check_suspicious_timing i s e).flags ∧
    (calculate_fraud_score m cd n i s e).risk_level =
      (if (check_metadata_fraud m cd).score + (check_claim_history n).score +
          (check_suspicious_timing i s e).score ≤ 30 then RiskLevel.low
       else if (check_metadata_fraud m cd).score + (check_claim_history n).score +
          (check_suspicious_timing i s e).score ≤ 70 then RiskLevel.medium
       else RiskLevel.high) :=
  ⟨rfl, rfl, rfl⟩

/-- Claim C7: `check_claim_history` has a strict boundary at count > 2:
above it the score is min(25, count × 8) and the result is suspicious,
otherwise the score is 0 and the result is not suspicious; in particular a
count of 3 scores 24 (suspicious) and a count of 2 scores 0 (not). -/
theorem C7_frequency_boundary (n : Nat) :
    (2 < n → (check_claim_history n).score = min 25 (n * 8) ∧
      (check_claim_history n).is_suspicious = true) ∧
    (n ≤ 2 → (check_claim_history n).score = 0 ∧
      (check_claim_history n).is_suspicious = false) ∧
    ((check_claim_history 3).score = 24 ∧
      (check_claim_history 3).is_suspicious = true) ∧
    ((check_claim_history 2).score = 0 ∧
      (check_claim_history 2).is_suspicious = false) := by
  refine ⟨fun h => ?_, fun h => ?_, by decide, by decide⟩
  · simp [check_claim_history, h]
  · simp [check_claim_history, Nat.not_lt.2 h]

/-- Witness for C7 at count 3. -/
theorem C7_frequency_boundary_witness :
    (check_claim_history 3).score = min 25 (3 * 8) ∧
    (check_claim_history 3).is_suspicious = true :=
  (C7_frequency_boundary 3).1 (by decide)

/-- Claim C8 counterexample: the claim asserts the +10 date-mismatch
signal fires exactly when the capture timestamp differs from the claimed
date by more than 7 days, symmetrically. But a photo taken 7 days and
1 hour (608400 s) after the claimed date differs by more than 7 days, yet
`abs((photo - claim).days)` floors to 7 and no signal is added: score 0, no
flags. -/
theorem C8_counterexample :
    7 * 86400 < (608400 : Int) - 0 ∧
    (check_metadata_fraud (photoOnlyMeta 608400) (some 0)).score = 0 ∧
    (check_metadata_fraud (photoOnlyMeta 608400) (some 0)).flags = [] := by
  decide

/-- Claim C8 (amended): with metadata present and no editing-software tag,
`check_metadata_fraud` adds the +10 date-mismatch signal exactly when the
floored day difference `(photo - claim).days` exceeds 7 in absolute value —
equivalently, when the photo is at least 8 whole days after, or strictly
more than 7 days before, the claimed incident date. The two directions
agree (symmetry) only at whole-day granularity. -/
theorem C8_amended_date_mismatch (p c : Int) :
    ((check_metadata_fraud (photoOnlyMeta p) (some c)).score =
      if 7 < ((p - c).fdiv 86400).natAbs then 10 else 0) ∧
    (7 < ((p - c).fdiv 86400).natAbs ↔
      (8 * 86400 ≤ p - c ∨ p - c < -7 * 86400)) ∧
    ((check_metadata_fraud (photoOnlyMeta p) (some c)).flags =
      if 7 < ((p - c).fdiv 86400).natAbs then
        [s!"Photo taken {((p - c).fdiv 86400).natAbs} days from claim date"]
      else []) := by
  refine ⟨?_, ?_, ?_⟩
  · by_cases h : 7 < ((p - c).fdiv 86400).natAbs <;>
      simp [check_metadata_fraud, photoOnlyMeta, h]
  · rw [Int.fdiv_eq_ediv _ (by norm_num)]
    omega
  · by_cases h : 7 < ((p - c).fdiv 86400).natAbs <;>
      simp [check_metadata_fraud, photoOnlyMeta, h]

/-- Claim C10: the aggregate fraud score is at most 70 — the sum of the
attainable analyzer maxima 20 + 25 + 25 — so the min(·, 100) cap never
binds (the returned score equals the raw sum), risk level "high" is never
produced, and the rejection rule of the decision engine (fraud_score > 70) is
unreachable for any fraud result this pipeline produces. -/
theorem C10_rejection_unreachable (m : ExifMeta) (cd : Option Int) (n : Nat)
    (i s e : Option Int) (d : DamageDict) (limit : Int) :
    (calculate_fraud_score m cd n i s e).fraud_score ≤ 70 ∧
    (calculate_fraud_score m cd n i s e).fraud_score =
      (check_metadata_fraud m cd).score + (check_claim_history n).score +
        (check_suspicious_timing i s e).score ∧
    (calculate_fraud_score m cd n i s e).risk_level ≠ RiskLevel.high ∧
    (make_decision d (calculate_fraud_score m cd n i s e) limit).decision ≠
      DecisionKind.rejected := by
  have h1 := metadata_score_le m cd
  have h2 := frequency_score_le n
  have h3 := timing_score_le i s e
  have htot : (check_metadata_fraud m cd).score + (check_claim_history n).score +
      (check_suspicious_timing i s e).score ≤ 70 := by omega
  have hfs : (calculate_fraud_score m cd n i s e).fraud_score =
      min ((check_metadata_fraud m cd).score + (check_claim_history n).score +
        (check_suspicious_timing i s e).score) 100 := rfl
  have heq : (calculate_fraud_score m cd n i s e).fraud_score =
      (check_metadata_fraud m cd).score + (check_claim_history n).score +
        (check_suspicious_timing i s e).score := by
    rw [hfs]
    exact Nat.min_eq_left (le_trans htot (by norm_num))
  have hle : (calculate_fraud_score m cd n i s e).fraud_score ≤ 70 := by
    rw [heq]
    exact htot
  refine ⟨hle, heq, ?_, ?_⟩
  · have hrl : (calculate_fraud_score m cd n i s e).risk_level =
        (if (check_metadata_fraud m cd).score + (check_claim_history n).score +
            (check_suspicious_timing i s e).score ≤ 30 then RiskLevel.low
         else if (check_metadata_fraud m cd).score + (check_claim_history n).score +
            (check_suspicious_timing i s e).score ≤ 70 then RiskLevel.medium
         else RiskLevel.high) := rfl
    rw [hrl]
    by_cases ha : (check_metadata_fraud m cd).score + (check_claim_history n).score +
        (check_suspicious_timing i s e).score ≤ 30
    · rw [if_pos ha]
      decide
    · rw [if_neg ha, if_pos htot]
      decide
  · simp only [make_decision, if_neg (Nat.not_lt.2 hle)]
    split_ifs <;> simp

/-- Claim C5 counterexample: the claim asserts that every reply that does
not parse as a structured record with the required fields yields the
confidence-0.5 parse fallback with a ≤500-char copy of the raw reply. Two
inputs refute it: (a) the reply "5" decodes to a JSON scalar, on which the
required-field membership test raises `TypeError` out of `_parse_response`;
the outer handler of `analyze_damage` then returns the service-error fallback
with confidence 0.3 (not 0.5) and no raw copy; (b) for the fenced reply
"```jsonhello" the stored copy is the fence-stripped text "hello", which is
neither the raw reply nor its 500-character truncation. -/
theorem C5_counterexample :
    analyze_damage (Except.ok ("5", Except.ok PyVal.scalar)) =
      errorFallback "argument of type is not iterable" ∧
    (3 / 10 : ℚ) ≠ 1 / 2 ∧
    analyze_damage (Except.ok ("```jsonhello", Except.error "Expecting value")) =
      parseFallback "Expecting value" "hello" ∧
    parseFallback "Expecting value" "hello" =
      PyVal.dict
        { damage_type := some "Unable to determine"
          severity := some "moderate"
          estimated_cost_ngn := some 200000
          damaged_items := some []
          confidence := some (1 / 2)
          reasoning := some "Error parsing response: Expecting value"
          raw_response := some "hello" } ∧
    "hello" ≠ pySlice "```jsonhello" 500 ∧
    "hello" ≠ "```jsonhello" := by
  refine ⟨rfl, by norm_num, rfl, rfl, by decide, by decide⟩

/-- Claim C5 (amended): for every reply on which JSON decoding fails, or
which decodes to a dict, string or list failing one of the required-field
membership checks, `analyze_damage` returns (it never raises — it is a
total function) the parse fallback: damage_type "Unable to determine",
severity "moderate", estimated cost 200000, confidence 0.5, a reasoning
describing the parse failure, and a copy of the fence-stripped reply
truncated to at most 500 characters. A reply decoding to a non-container
scalar instead raises `TypeError` inside the parser, and the outer handler
returns the service-error fallback with confidence 0.3. -/
theorem C5_amended_parse_fallback (text : String) (loads : Except String PyVal)
    (h : badLoads loads = true) :
    analyze_damage (Except.ok (text, loads)) =
      parseFallback (loadsErrMsg loads) (stripFences text) ∧
    (pySlice (stripFences text) 500).length ≤ 500 ∧
    (∀ t : String, analyze_damage (Except.ok (t, Except.ok PyVal.scalar)) =
      errorFallback "argument of type is not iterable") := by
  refine ⟨?_, ?_, fun t => rfl⟩
  · match loads with
    | .error e => rfl
    | .ok v =>
      match v with
      | .dict d =>
        simp only [badLoads, pyContains, Bool.not_eq_eq_eq_not, Bool.not_true] at h
        simp [analyze_damage, parse_response, pyContains, loadsErrMsg, h]
      | .str s =>
        simp only [badLoads, pyContains, Bool.not_eq_eq_eq_not, Bool.not_true] at h
        simp [analyze_damage, parse_response, pyContains, loadsErrMsg, h]
      | .list xs =>
        simp only [badLoads, pyContains, Bool.not_eq_eq_eq_not, Bool.not_true] at h
        unfold analyze_damage parse_response
        dsimp only [pyContains]
        rw [h]
        simp [loadsErrMsg]
      | .scalar => exact absurd h (by decide)
  · show ((stripFences text).data.take 500).length ≤ 500
    rw [List.length_take]
    exact Nat.min_le_left _ _

/-- Witness for C5 (amended): a decode failure on an unfenced garbage
reply. -/
theorem C5_amended_parse_fallback_witness :
    badLoads (Except.error "Expecting value") = true ∧
    (analyze_damage (Except.ok ("garbage", Except.error "Expecting value")) =
      parseFallback (loadsErrMsg (Except.error "Expecting value"))
        (stripFences "garbage") ∧
    (pySlice (stripFences "garbage") 500).length ≤ 500 ∧
    (∀ t : String, analyze_damage (Except.ok (t, Except.ok PyVal.scalar)) =
      errorFallback "argument of type is not iterable")) :=
  ⟨by decide, C5_amended_parse_fallback "garbage" (Except.error "Expecting value")
    (by decide)⟩

/-- Claim C6 counterexample: the claim asserts that on every unhandled
exception in steps 3–5 the claim ends UNDER_REVIEW with a
"Processing error: ..." reason. In `envDoubleFailure` the history query of
step 3 raises, and the recovery commit also fails (the database is down);
the bare `except: pass` then leaves the persisted claim untouched — it
stays PENDING, not UNDER_REVIEW. -/
theorem C6_counterexample :
    envDoubleFailure.historyCount = Except.error "history store unavailable" ∧
    process_claim envDoubleFailure pendingClaim = pendingClaim ∧
    (process_claim envDoubleFailure pendingClaim).status = ClaimStatus.pending ∧
    ClaimStatus.pending ≠ ClaimStatus.under_review :=
  ⟨rfl, rfl, rfl, by decide⟩

/-- Claim C6 (amended): when the claim and customer are found, an image is
present and downloadable, and an unhandled exception arises in steps 3–5
(the history query raises, the final commit raises, or the damage result is
not a dict so reading its cost raises), then: provided the recovery commit
succeeds, the persisted claim ends with status UNDER_REVIEW and
decision_reason "Processing error: <message>"; if the recovery commit
itself also fails, the persisted claim record is left unchanged. -/
theorem C6_amended_error_boundary (env : Env) (c0 : ClaimRecord)
    (cd : ClaimData) (cust : CustomerData) (exif : ExifMeta)
    (h1 : env.claimLookup = Lookup.found cd)
    (h2 : env.customerLookup = Lookup.found cust)
    (h3 : cd.images.isEmpty = false)
    (h4 : env.download = Except.ok exif)
    (h5 : (∃ e, env.historyCount = Except.error e) ∨
      (∃ e, env.commit = Except.error e) ∨
      (∀ dd, analyze_damage env.vision ≠ PyVal.dict dd)) :
    (env.recoveryCommit = Except.ok () →
      (process_claim env c0).status = ClaimStatus.under_review ∧
      ∃ m, (process_claim env c0).decision_reason =
        some ("Processing error: " ++ m)) ∧
    (∀ e2, env.recoveryCommit = Except.error e2 →
      process_claim env c0 = c0) := by
  have key : ∃ mem msg, process_claim env c0 = recover env c0 mem msg := by
    unfold process_claim
    simp only [h1, h2, h3, h4, Bool.false_eq_true, if_false]
    rcases hv : analyze_damage env.vision with dd | s | xs | _
    · rcases h5 with ⟨e, he⟩ | ⟨e, he⟩ | hnd
      · simp only [he]
        exact ⟨_, _, rfl⟩
      · cases hh : env.historyCount with
        | error e2 => simp only [hh]; exact ⟨_, _, rfl⟩
        | ok n => simp only [hh, he]; exact ⟨_, _, rfl⟩
      · exact absurd hv (hnd dd)
    · exact ⟨_, _, rfl⟩
    · exact ⟨_, _, rfl⟩
    · exact ⟨_, _, rfl⟩
  obtain ⟨mem, msg, hkey⟩ := key
  refine ⟨fun hrc => ?_, fun e2 hrc => ?_⟩
  · rw [hkey, recover_ok env c0 mem msg hrc]
    exact ⟨rfl, msg, rfl⟩
  · rw [hkey, recover_err env c0 mem msg e2 hrc]

/-- Witness for C6 (amended): the history query raises and the recovery
commit succeeds; the persisted claim ends UNDER_REVIEW with a processing
error reason. -/
theorem C6_amended_error_boundary_witness :
    (process_claim envHistoryErrorRecoverOk pendingClaim).status =
      ClaimStatus.under_review ∧
    ∃ m, (process_claim envHistoryErrorRecoverOk pendingClaim).decision_reason =
      some ("Processing error: " ++ m) :=
  (C6_amended_error_boundary envHistoryErrorRecoverOk pendingClaim
    claimData0 customer0 exif0 rfl rfl rfl rfl
    (Or.inl ⟨"history store unavailable", rfl⟩)).1 rfl

/-- Claim C9: when the referenced claim or the referenced customer cannot
be found, `process_claim` returns early: no field of the claim record is
written and a PENDING claim stays PENDING. -/
theorem C9_missing_entities_no_state_change (env : Env) (c0 : ClaimRecord)
    (h : env.claimLookup = Lookup.notFound ∨
      ((∃ cd, env.claimLookup = Lookup.found cd) ∧
        env.customerLookup = Lookup.notFound)) :
    process_claim env c0 = c0 ∧
    (c0.status = ClaimStatus.pending →
      (process_claim env c0).status = ClaimStatus.pending) := by
  have hmain : process_claim env c0 = c0 := by
    rcases h with h | ⟨⟨cd, hcd⟩, hcust⟩
    · unfold process_claim
      simp only [h]
    · unfold process_claim
      simp only [hcd, hcust]
  refine ⟨hmain, fun hp => ?_⟩
  rw [hmain]
  exact hp

/-- Witness for C9: a missing claim row leaves the PENDING record
untouched. -/
theorem C9_missing_entities_no_state_change_witness :
    process_claim envClaimMissing pendingClaim = pendingClaim ∧
    (pendingClaim.status = ClaimStatus.pending →
      (process_claim envClaimMissing pendingClaim).status = ClaimStatus.pending) :=
  C9_missing_entities_no_state_change envClaimMissing pendingClaim (Or.inl rfl)

/-- Witness for C10 at a concrete input (stripped metadata, 5 recent
claims): the aggregate stays at 40 ≤ 70 and the decision is not a
rejection. -/
theorem C10_rejection_unreachable_witness :
    (calculate_fraud_score exif0 none 5 none none none).fraud_score ≤ 70 ∧
    (calculate_fraud_score exif0 none 5 none none none).fraud_score =
      (check_metadata_fraud exif0 none).score + (check_claim_history 5).score +
        (check_suspicious_timing none none none).score ∧
    (calculate_fraud_score exif0 none 5 none none none).risk_level ≠
      RiskLevel.high ∧
    (make_decision damageDict0 (calculate_fraud_score exif0 none 5 none none none)
      500000).decision ≠ DecisionKind.rejected :=
  C10_rejection_unreachable exif0 none 5 none none none damageDict0 500000

end ClaimGuard
